import Mathlib

/-!
Shallow embedding of the DX11 shader cross-compilation pipeline
(`src/backend/dx11/src/shader.rs`): SPIR-V module parsing, specialization
constant resolution, descriptor-set binding remap, HLSL translation and
native-compiler invocation.

The SPIRV-Cross `Ast` is external library state; we model it as a concrete
record holding exactly the data the pipeline queries and mutates
(specialization constants, shader resources, descriptor-set decorations,
entry points, cleansed entry-point names, and the translation output).
External calls that the repository does not implement (the SPIR-V parser
proper, the `D3DCompile` entry of d3dcompiler) are taken as function
parameters.  Rust panics (`assert_eq!`, `unimplemented!`, `unwrap`) are
modelled by an outer `Option`: `none` is a panic, `some` a returned value.
-/

namespace Dx11

/-- spirv_cross::ErrorCode: either a compilation error with a message, or an
unhandled/unknown error. -/
inductive SpirvErrorCode where
  | CompilationError (msg : String)
  | Unhandled
deriving DecidableEq

/-- Modelled from the spec: the shader-compilation error type (`device::ShaderError`
of the `hal` crate, which is not under `src/`).  Spec section 7 lists the variants the
pipeline uses: `CompilationFailed(message)` and `MissingEntryPoint(name)`. -/
inductive ShaderError where
  | CompilationFailed (msg : String)
  | MissingEntryPoint (name : String)
deriving DecidableEq

/-- Translation of `gen_unexpected_error` (shader.rs lines 16-22). -/
def gen_unexpected_error (err : SpirvErrorCode) : ShaderError :=
  match err with
  | SpirvErrorCode.CompilationError msg => ShaderError.CompilationFailed msg
  | SpirvErrorCode.Unhandled => ShaderError.CompilationFailed "Unexpected error"

/-- Translation of `gen_query_error` (shader.rs lines 25-31). -/
def gen_query_error (err : SpirvErrorCode) : ShaderError :=
  match err with
  | SpirvErrorCode.CompilationError msg => ShaderError.CompilationFailed msg
  | SpirvErrorCode.Unhandled => ShaderError.CompilationFailed "Unknown query error"

/-- A shader resource record as exposed by SPIRV-Cross.  The pipeline only ever
reads the `id` field (spec section 3 also lists name/descriptor_set/binding, which
`patch_spirv_resources` does not consume; the descriptor-set value is read through
the decoration query instead). -/
structure Resource where
  id : Nat
deriving DecidableEq

/-- The six resource categories of `spirv::ShaderResources` that
`patch_spirv_resources` iterates over, in source order. -/
structure ShaderResources where
  separate_images : List Resource
  uniform_buffers : List Resource
  storage_buffers : List Resource
  storage_images : List Resource
  separate_samplers : List Resource
  sampled_images : List Resource
deriving DecidableEq

/-- All resources of the six categories, in the order the source's six loops
process them. -/
def ShaderResources.allResources (sr : ShaderResources) : List Resource :=
  sr.separate_images ++ sr.uniform_buffers ++ sr.storage_buffers ++
    sr.storage_images ++ sr.separate_samplers ++ sr.sampled_images

/-- A declared specialization constant held by the module: SPIRV-Cross internal
`id`, stable `constant_id`, and the 64-bit scalar payload currently stored
(the module default until overwritten). -/
structure SpecConstantDecl where
  id : Nat
  constant_id : Nat
  value : Nat
deriving DecidableEq

/-- The record returned by `ast.get_specialization_constants()`:
`spirv::SpecializationConstant { id, constant_id }`. -/
structure SpecializationConstant where
  id : Nat
  constant_id : Nat
deriving DecidableEq

/-- spirv::ExecutionModel (the execution models relevant to the graphics stages). -/
inductive ExecutionModel where
  | Vertex
  | TessellationControl
  | TessellationEvaluation
  | Geometry
  | Fragment
  | GlCompute
  | Kernel
deriving DecidableEq

/-- pso::Stage of the `hal` crate (the pipeline stages the DX11 backend matches on). -/
inductive Stage where
  | Vertex
  | Hull
  | Domain
  | Geometry
  | Fragment
  | Compute
deriving DecidableEq

/-- hlsl::ShaderModel of spirv_cross (the shader models `compile_hlsl_shader`
matches on, plus the remaining variants of the external enum). -/
inductive ShaderModel where
  | V3_0
  | V4_0
  | V4_1
  | V5_0
  | V5_1
  | V6_0
deriving DecidableEq

/-- An entry point as enumerated by `ast.get_entry_points()`: its (cleansed)
name and execution model. -/
structure EntryPointInfo where
  name : String
  execution_model : ExecutionModel
deriving DecidableEq

/-- hlsl::CompilerOptions: the two options `translate_spirv` sets. -/
structure CompilerOptions where
  shader_model : ShaderModel
  vertex_invert_y : Bool
deriving DecidableEq

/-- The `PipelineLayout` collaborator.  `patch_spirv_resources` accepts it but the
current behavior never reads it (the descriptor-set offset is the constant 1). -/
structure PipelineLayout where
deriving DecidableEq

/-- Association-list lookup keyed by resource/variable id. -/
def lookupAssoc : List (Nat × Nat) → Nat → Option Nat
  | [], _ => none
  | (k, v) :: rest, x => if k = x then some v else lookupAssoc rest x

/-- Association-list update keyed by resource/variable id. -/
def setAssoc : List (Nat × Nat) → Nat → Nat → List (Nat × Nat)
  | [], k, v => [(k, v)]
  | (k', v') :: rest, k, v =>
    if k' = k then (k, v) :: rest else (k', v') :: setAssoc rest k v

/-- Lookup of a cleansed entry-point name by (original name, execution model). -/
def lookupCleansed : List ((String × ExecutionModel) × String) → (String × ExecutionModel) → Option String
  | [], _ => none
  | (k, v) :: rest, x => if k = x then some v else lookupCleansed rest x

/-- Decidable equality for `Except` results, used to compute with concrete
pipeline outcomes. -/
instance {ε α : Type} [DecidableEq ε] [DecidableEq α] : DecidableEq (Except ε α) := fun x y =>
  match x, y with
  | Except.ok a, Except.ok b =>
    if h : a = b then Decidable.isTrue (congrArg Except.ok h)
    else Decidable.isFalse (fun hh => h (Except.ok.inj hh))
  | Except.error a, Except.error b =>
    if h : a = b then Decidable.isTrue (congrArg Except.error h)
    else Decidable.isFalse (fun hh => h (Except.error.inj hh))
  | Except.ok _, Except.error _ => Decidable.isFalse (fun hh => Except.noConfusion hh)
  | Except.error _, Except.ok _ => Decidable.isFalse (fun hh => Except.noConfusion hh)

/-- The SPIRV-Cross AST state the pipeline queries and mutates: declared
specialization constants (with current payloads), shader resources,
descriptor-set decorations, entry points, the cleansed-name table, the
translation output `compiled` (what `ast.compile()` yields), and the compiler
options last set. -/
structure Ast where
  spec_constants : List SpecConstantDecl
  resources : ShaderResources
  decorations : List (Nat × Nat)
  entry_points : List EntryPointInfo
  cleansed : List ((String × ExecutionModel) × String)
  compiled : Except SpirvErrorCode String
  options : CompilerOptions
deriving DecidableEq

/-- The decorations the pipeline touches (`spirv::Decoration::DescriptorSet`). -/
inductive Decoration where
  | DescriptorSet
deriving DecidableEq

/-- `ast.get_shader_resources()`. -/
def Ast.get_shader_resources (a : Ast) : Except SpirvErrorCode ShaderResources :=
  Except.ok a.resources

/-- `ast.get_decoration(id, Decoration::DescriptorSet)`: reads the current
descriptor-set decoration; a resource with no readable decoration is a query
error (spec section 3 invariant), never a silent default. -/
def Ast.get_decoration (a : Ast) (id : Nat) (dec : Decoration) : Except SpirvErrorCode Nat :=
  match dec with
  | Decoration.DescriptorSet =>
    match lookupAssoc a.decorations id with
    | some v => Except.ok v
    | none => Except.error SpirvErrorCode.Unhandled

/-- `ast.set_decoration(id, Decoration::DescriptorSet, v)`: writes the
decoration value (always succeeds once the module holds the id map). -/
def Ast.set_decoration (a : Ast) (id : Nat) (dec : Decoration) (v : Nat) : Except SpirvErrorCode Ast :=
  match dec with
  | Decoration.DescriptorSet =>
    Except.ok { a with decorations := setAssoc a.decorations id v }

/-- `ast.get_specialization_constants()`. -/
def Ast.get_specialization_constants (a : Ast) : Except SpirvErrorCode (List SpecializationConstant) :=
  Except.ok (a.spec_constants.map (fun d => { id := d.id, constant_id := d.constant_id }))

/-- `ast.set_scalar_constant(id, value)`: stores a 64-bit scalar payload into the
constant with the given internal id; an unknown id is an error. -/
def Ast.set_scalar_constant (a : Ast) (id : Nat) (value : Nat) : Except SpirvErrorCode Ast :=
  if a.spec_constants.any (fun d => d.id == id) then
    Except.ok { a with spec_constants :=
      a.spec_constants.map (fun d => if d.id == id then { d with value := value } else d) }
  else
    Except.error SpirvErrorCode.Unhandled

/-- `ast.get_entry_points()`. -/
def Ast.get_entry_points (a : Ast) : Except SpirvErrorCode (List EntryPointInfo) :=
  Except.ok a.entry_points

/-- `ast.get_cleansed_entry_point_name(name, model)`: the real (possibly
mangled) entry symbol for a logical name and execution model. -/
def Ast.get_cleansed_entry_point_name (a : Ast) (name : String) (model : ExecutionModel) :
    Except SpirvErrorCode String :=
  match lookupCleansed a.cleansed (name, model) with
  | some real => Except.ok real
  | none => Except.error SpirvErrorCode.Unhandled

/-- `ast.set_compiler_options(&opts)`. -/
def Ast.set_compiler_options (a : Ast) (opts : CompilerOptions) : Except SpirvErrorCode Ast :=
  Except.ok { a with options := opts }

/-- `ast.compile()`: emission of the target-language source text (external to
the repository; the outcome is carried by the `compiled` field). -/
def Ast.compile (a : Ast) : Except SpirvErrorCode String :=
  a.compiled

/-- The fixed descriptor-set offset of `patch_spirv_resources`
(shader.rs line 183: `let space_offset = 1;`). -/
def space_offset : Nat := 1

/-- One category loop of `patch_spirv_resources`: for each resource, read the
descriptor-set decoration (query error on failure) and write back
`space_offset + set` (unexpected-error class on failure).  The addition is
32-bit unsigned arithmetic, hence the explicit `% 2 ^ 32`. -/
def patch_resource_list : Ast → List Resource → Except ShaderError Ast
  | a, [] => Except.ok a
  | a, r :: rs =>
    match a.get_decoration r.id Decoration.DescriptorSet with
    | Except.error e => Except.error (gen_query_error e)
    | Except.ok set =>
      match a.set_decoration r.id Decoration.DescriptorSet ((space_offset + set) % 2 ^ 32) with
      | Except.error e => Except.error (gen_unexpected_error e)
      | Except.ok a' => patch_resource_list a' rs

/-- Translation of `patch_spirv_resources` (shader.rs lines 174-225): fetches the
shader resources once, then runs the six category loops in source order. -/
def patch_spirv_resources (ast : Ast) (_layout : Option PipelineLayout) : Except ShaderError Ast :=
  match ast.get_shader_resources with
  | Except.error e => Except.error (gen_query_error e)
  | Except.ok shader_resources =>
    match patch_resource_list ast shader_resources.separate_images with
    | Except.error e => Except.error e
    | Except.ok a1 =>
      match patch_resource_list a1 shader_resources.uniform_buffers with
      | Except.error e => Except.error e
      | Except.ok a2 =>
        match patch_resource_list a2 shader_resources.storage_buffers with
        | Except.error e => Except.error e
        | Except.ok a3 =>
          match patch_resource_list a3 shader_resources.storage_images with
          | Except.error e => Except.error e
          | Except.ok a4 =>
            match patch_resource_list a4 shader_resources.separate_samplers with
            | Except.error e => Except.error e
            | Except.ok a5 =>
              match patch_resource_list a5 shader_resources.sampled_images with
              | Except.error e => Except.error e
              | Except.ok a6 => Except.ok a6

/-- pso::Constant of the `hal` crate: the tagged union of specialization override
values, with the variants the source's match arms list (shader.rs lines 53-61).
Floating-point variants are represented by the IEEE-754 bit pattern of the value
(`bits`), since the pipeline only ever moves their bits, never their numeric
value. -/
inductive Constant where
  | Bool (v : Bool)
  | U32 (v : Nat)
  | U64 (v : Nat)
  | I32 (v : Int)
  | I64 (v : Int)
  | F32 (bits : Nat)
  | F64 (bits : Nat)
deriving DecidableEq

/-- The 64-bit payload the source computes for an override value (shader.rs
lines 53-61): `v as u64` for Bool/U32/U64 (zero-extension), and a pointer-level
bit reinterpretation for I32/I64/F32/F64.  For the 32-bit variants the source
reads 64 bits from the address of a 32-bit local, so only the low 32 bits are
defined; we model exactly those defined bits (two's complement for I32, the
IEEE-754 pattern for F32). -/
def constant_value : Constant → Nat
  | Constant.Bool v => if v then 1 else 0
  | Constant.U32 v => v % 2 ^ 32
  | Constant.U64 v => v % 2 ^ 64
  | Constant.I32 v => (v % 2 ^ 32).toNat
  | Constant.I64 v => (v % 2 ^ 64).toNat
  | Constant.F32 bits => bits % 2 ^ 32
  | Constant.F64 bits => bits % 2 ^ 64

/-- pso::Specialization of the `hal` crate: a caller-supplied override,
matched against declared constants by `id` (the stable constant_id). -/
structure Specialization where
  id : Nat
  value : Constant
deriving DecidableEq

/-- pso::EntryPoint of the `hal` crate, restricted to the fields
`compile_spirv_entrypoint` consumes: the logical entry name and the
specialization overrides (the module handle is passed separately as raw bytes). -/
structure EntryPointDesc where
  entry : String
  specialization : List Specialization
deriving DecidableEq

/-- The specialization-override loop of `compile_spirv_entrypoint` (shader.rs
lines 45-65): for each declared constant, look for an override with matching
`constant_id`; when found, write its 64-bit payload at the constant's internal
id. -/
def apply_specialization (src : List Specialization) :
    Ast → List SpecializationConstant → Except ShaderError Ast
  | a, [] => Except.ok a
  | a, spec_constant :: rest =>
    match src.find? (fun c => c.id == spec_constant.constant_id) with
    | some constant =>
      match a.set_scalar_constant spec_constant.id (constant_value constant.value) with
      | Except.error e => Except.error (gen_query_error e)
      | Except.ok a' => apply_specialization src a' rest
    | none => apply_specialization src a rest

/-- Stage 2 of the pipeline as performed by `compile_spirv_entrypoint`
(shader.rs lines 41-65): query the declared specialization constants, then run
the override loop. -/
def resolve_specialization (ast : Ast) (specialization : List Specialization) :
    Except ShaderError Ast :=
  match ast.get_specialization_constants with
  | Except.error e => Except.error (gen_query_error e)
  | Except.ok spec_constants => apply_specialization specialization ast spec_constants

/-- Modelled from the spec: `conv::map_stage` of the dx11 backend is not under
`src/`; the correspondence between pipeline stages and portable execution models
follows the glossary of the spec (vertex/fragment/compute plus the tessellation
and geometry stages). -/
def map_stage : Stage → ExecutionModel
  | Stage.Vertex => ExecutionModel.Vertex
  | Stage.Hull => ExecutionModel.TessellationControl
  | Stage.Domain => ExecutionModel.TessellationEvaluation
  | Stage.Geometry => ExecutionModel.Geometry
  | Stage.Fragment => ExecutionModel.Fragment
  | Stage.Compute => ExecutionModel.GlCompute

/-- Modelled from the spec: `conv::map_execution_model` of the dx11 backend is
not under `src/`; it is the inverse correspondence of `map_stage` (compute
kernels also map to the compute stage). -/
def map_execution_model : ExecutionModel → Stage
  | ExecutionModel.Vertex => Stage.Vertex
  | ExecutionModel.TessellationControl => Stage.Hull
  | ExecutionModel.TessellationEvaluation => Stage.Domain
  | ExecutionModel.Geometry => Stage.Geometry
  | ExecutionModel.Fragment => Stage.Fragment
  | ExecutionModel.GlCompute => Stage.Compute
  | ExecutionModel.Kernel => Stage.Compute

/-- Translation of `translate_spirv` (shader.rs lines 227-266): set the compiler
options (requested shader model, vertex coordinate inversion) and ask the AST to
emit target source.  The source mutates the AST in place; here the updated AST
is returned alongside the emitted text. -/
def translate_spirv (ast : Ast) (shader_model : ShaderModel) (_layout : PipelineLayout)
    (_stage : Stage) : Except ShaderError (String × Ast) :=
  let compile_options : CompilerOptions :=
    { shader_model := shader_model, vertex_invert_y := true }
  match ast.set_compiler_options compile_options with
  | Except.error e => Except.error (gen_unexpected_error e)
  | Except.ok ast' =>
    match ast'.compile with
    | Except.error (SpirvErrorCode.CompilationError msg) =>
      Except.error (ShaderError.CompilationFailed msg)
    | Except.error SpirvErrorCode.Unhandled =>
      Except.error (ShaderError.CompilationFailed "Unknown compile error")
    | Except.ok shader_code => Except.ok (shader_code, ast')

/-- The `stage_to_str` closure of `compile_hlsl_shader` (shader.rs lines 99-117):
stage tag and shader-model tag joined by an underscore, with a trailing NUL for
the C calling convention; unsupported stages and models hit `unimplemented!()`,
modelled as `none`. -/
def stage_to_str (stage : Stage) (shader_model : ShaderModel) : Option String :=
  match (match stage with
    | Stage.Vertex => some "vs"
    | Stage.Fragment => some "ps"
    | Stage.Compute => some "cs"
    | _ => none) with
  | none => none
  | some st =>
    match (match shader_model with
      | ShaderModel.V5_0 => some "5_0"
      | ShaderModel.V5_1 => some "5_1"
      | ShaderModel.V6_0 => some "6_0"
      | _ => none) with
    | none => none
    | some model => some (st ++ "_" ++ model ++ "\x00")

/-- The text an external C consumer reads from a NUL-terminated string buffer:
everything before the first NUL. -/
def cString (s : String) : String :=
  String.mk (s.data.takeWhile (fun c => c != Char.ofNat 0))

/-- U+FFFD, the replacement character of lossy UTF-8 decoding. -/
def replacementChar : Char := Char.ofNat 0xFFFD

/-- A UTF-8 continuation byte. -/
def isCont (b : Nat) : Bool := 0x80 ≤ b && b ≤ 0xBF

/-- Valid second byte of a three-byte UTF-8 sequence with lead `b`. -/
def utf8Second3Ok (b c1 : Nat) : Bool :=
  if b == 0xE0 then 0xA0 ≤ c1 && c1 ≤ 0xBF
  else if b == 0xED then 0x80 ≤ c1 && c1 ≤ 0x9F
  else isCont c1

/-- Valid second byte of a four-byte UTF-8 sequence with lead `b`. -/
def utf8Second4Ok (b c1 : Nat) : Bool :=
  if b == 0xF0 then 0x90 ≤ c1 && c1 ≤ 0xBF
  else if b == 0xF4 then 0x80 ≤ c1 && c1 ≤ 0x8F
  else isCont c1

/-- Lossy UTF-8 decoding (Rust `String::from_utf8_lossy`): invalid sequences
are replaced by U+FFFD using substitution of maximal subparts (the bytes of a
valid prefix of a sequence are skipped together; an invalid byte is skipped
alone; a truncated sequence at the end yields one replacement).  Decoding never
fails.  `fuel` bounds recursion; each step consumes at least one input byte, so
`fuel = length` always suffices. -/
def utf8LossyGo : Nat → List Nat → List Char
  | 0, _ => []
  | _, [] => []
  | fuel + 1, b :: rest =>
    if b ≤ 0x7F then Char.ofNat b :: utf8LossyGo fuel rest
    else if 0xC2 ≤ b && b ≤ 0xDF then
      match rest with
      | [] => [replacementChar]
      | c1 :: rest1 =>
        if isCont c1 then
          Char.ofNat ((b - 0xC0) * 64 + (c1 - 0x80)) :: utf8LossyGo fuel rest1
        else replacementChar :: utf8LossyGo fuel (c1 :: rest1)
    else if 0xE0 ≤ b && b ≤ 0xEF then
      match rest with
      | [] => [replacementChar]
      | c1 :: rest1 =>
        if utf8Second3Ok b c1 then
          match rest1 with
          | [] => [replacementChar]
          | c2 :: rest2 =>
            if isCont c2 then
              Char.ofNat ((b - 0xE0) * 4096 + (c1 - 0x80) * 64 + (c2 - 0x80)) ::
                utf8LossyGo fuel rest2
            else replacementChar :: utf8LossyGo fuel (c2 :: rest2)
        else replacementChar :: utf8LossyGo fuel (c1 :: rest1)
    else if 0xF0 ≤ b && b ≤ 0xF4 then
      match rest with
      | [] => [replacementChar]
      | c1 :: rest1 =>
        if utf8Second4Ok b c1 then
          match rest1 with
          | [] => [replacementChar]
          | c2 :: rest2 =>
            if isCont c2 then
              match rest2 with
              | [] => [replacementChar]
              | c3 :: rest3 =>
                if isCont c3 then
                  Char.ofNat ((b - 0xF0) * 262144 + (c1 - 0x80) * 4096 +
                      (c2 - 0x80) * 64 + (c3 - 0x80)) :: utf8LossyGo fuel rest3
                else replacementChar :: utf8LossyGo fuel (c3 :: rest3)
            else replacementChar :: utf8LossyGo fuel (c2 :: rest2)
        else replacementChar :: utf8LossyGo fuel (c1 :: rest1)
    else replacementChar :: utf8LossyGo fuel rest

/-- `String::from_utf8_lossy(bytes).into_owned()`. -/
def utf8Lossy (bytes : List Nat) : String :=
  String.mk (utf8LossyGo bytes.length bytes)

/-- UTF-8 encoding of one character (Rust `str::as_bytes` for that character). -/
def utf8EncodeChar (c : Char) : List Nat :=
  let n := c.toNat
  if n ≤ 0x7F then [n]
  else if n ≤ 0x7FF then [0xC0 + n / 64, 0x80 + n % 64]
  else if n ≤ 0xFFFF then [0xE0 + n / 4096, 0x80 + (n / 64) % 64, 0x80 + n % 64]
  else [0xF0 + n / 262144, 0x80 + (n / 4096) % 64, 0x80 + (n / 64) % 64, 0x80 + n % 64]

/-- Rust `str::as_bytes`: UTF-8 byte sequence of a string. -/
def strBytes (s : String) : List Nat :=
  (s.data.map utf8EncodeChar).flatten

/-- An opaque native bytecode blob (`ID3DBlob` contents). -/
structure Blob where
  bytes : List Nat
deriving DecidableEq

/-- Outcome of the external `D3DCompile` call: a success blob, or a failure
carrying the diagnostic byte blob the compiler wrote. -/
inductive D3DResult where
  | succeeded (blob : Blob)
  | failed (error_blob : List Nat)
deriving DecidableEq

/-- The tail of `compile_hlsl_shader` (shader.rs lines 138-149): on failure the
diagnostic blob is decoded with lossy UTF-8 and surfaced as
`CompilationFailed`; on success the blob is returned. -/
def d3d_outcome : D3DResult → Except ShaderError Blob
  | D3DResult.succeeded blob => Except.ok blob
  | D3DResult.failed error_blob =>
    Except.error (ShaderError.CompilationFailed (utf8Lossy error_blob))

/-- Translation of `compile_hlsl_shader` (shader.rs lines 93-150).  The external
`D3DCompile` is a parameter receiving the profile C-string contents, the entry
symbol and the source bytes (source name, include/macro arguments and the fixed
flag pair 1/0 are invariant and folded into the parameter).
`CString::new(entry).unwrap()` panics on an interior NUL, and unsupported
stage/model combinations hit `unimplemented!()`: both are modelled as `none`. -/
def compile_hlsl_shader (d3dCompile : String → String → List Nat → D3DResult)
    (stage : Stage) (shader_model : ShaderModel) (entry : String) (code : List Nat) :
    Option (Except ShaderError Blob) :=
  if entry.data.any (fun c => c == Char.ofNat 0) then none
  else
    match stage_to_str stage shader_model with
    | none => none
    | some profile => some (d3d_outcome (d3dCompile (cString profile) entry code))

/-- Reinterpretation of the byte buffer as 32-bit words (`slice::from_raw_parts`
over the buffer; the supported platform is little-endian). -/
def decodeWords : List Nat → List Nat
  | b0 :: b1 :: b2 :: b3 :: rest =>
    (b0 + b1 * 256 + b2 * 65536 + b3 * 16777216) :: decodeWords rest
  | _ => []

/-- Translation of `parse_spirv` (shader.rs lines 153-172).  The
`assert_eq!(raw_data.len() & 3, 0)` guard is an assertion-class failure
(modelled as `none`) and fires before any word is decoded; the SPIR-V parser
proper is external (`spirv::Ast::parse`), taken as a parameter. -/
def parse_spirv (spirvParse : List Nat → Except SpirvErrorCode Ast) (raw_data : List Nat) :
    Option (Except ShaderError Ast) :=
  if raw_data.length &&& 3 = 0 then
    some (match spirvParse (decodeWords raw_data) with
      | Except.ok ast => Except.ok ast
      | Except.error (SpirvErrorCode.CompilationError msg) =>
        Except.error (ShaderError.CompilationFailed msg)
      | Except.error SpirvErrorCode.Unhandled =>
        Except.error (ShaderError.CompilationFailed "Unknown parsing error"))
  else none

/-- Translation of `compile_spirv_entrypoint` (shader.rs lines 33-91): parse,
resolve specialization overrides, remap bindings, translate to HLSL, resolve
the cleansed entry point among the module's entry points (failing with
`MissingEntryPoint` on no match), then invoke the native compiler with the
stage derived from the matched entry point's execution model. -/
def compile_spirv_entrypoint (spirvParse : List Nat → Except SpirvErrorCode Ast)
    (d3dCompile : String → String → List Nat → D3DResult)
    (raw_data : List Nat) (stage : Stage) (source : EntryPointDesc)
    (layout : PipelineLayout) : Option (Except ShaderError (Option Blob)) :=
  match parse_spirv spirvParse raw_data with
  | none => none
  | some (Except.error e) => some (Except.error e)
  | some (Except.ok ast) =>
    match resolve_specialization ast source.specialization with
    | Except.error e => some (Except.error e)
    | Except.ok ast1 =>
      match patch_spirv_resources ast1 (some layout) with
      | Except.error e => some (Except.error e)
      | Except.ok ast2 =>
        match translate_spirv ast2 ShaderModel.V5_0 layout stage with
        | Except.error e => some (Except.error e)
        | Except.ok (shader_code, ast3) =>
          match ast3.get_cleansed_entry_point_name source.entry (map_stage stage) with
          | Except.error e => some (Except.error (gen_query_error e))
          | Except.ok real_name =>
            match ast3.get_entry_points with
            | Except.error e => some (Except.error (gen_query_error e))
            | Except.ok entry_points =>
              match entry_points.find? (fun entry_point => entry_point.name == real_name) with
              | none => some (Except.error (ShaderError.MissingEntryPoint source.entry))
              | some entry_point =>
                match compile_hlsl_shader d3dCompile
                    (map_execution_model entry_point.execution_model) ShaderModel.V5_0
                    entry_point.name (strBytes shader_code) with
                | none => none
                | some (Except.error e) => some (Except.error e)
                | some (Except.ok shader) => some (Except.ok (some shader))

/-- The 64-bit payload currently stored for the specialization constant with
internal id `id` (the module default until overwritten). -/
def Ast.scalar_value (a : Ast) (id : Nat) : Option Nat :=
  (a.spec_constants.find? (fun d => d.id == id)).map SpecConstantDecl.value

/-- A concrete minimal fragment module: one uniform buffer (id 7) at descriptor
set 0, two declared specialization constants (internal ids 3 and 4, constant_ids
10 and 11, defaults 42 and 7), entry point `main`. -/
def astW : Ast :=
  { spec_constants := [⟨3, 10, 42⟩, ⟨4, 11, 7⟩]
    resources := { separate_images := [], uniform_buffers := [⟨7⟩], storage_buffers := []
                   storage_images := [], separate_samplers := [], sampled_images := [] }
    decorations := [(7, 0)]
    entry_points := [⟨"main", ExecutionModel.Fragment⟩]
    cleansed := [(("main", ExecutionModel.Fragment), "main")]
    compiled := Except.ok "float4 main() : SV_TARGET"
    options := { shader_model := ShaderModel.V3_0, vertex_invert_y := false } }

/-- `astW` after one binding remap: the uniform buffer moved to descriptor set 1. -/
def astW1 : Ast := { astW with decorations := [(7, 1)] }

/-- `astW` after two binding remaps: the uniform buffer moved to descriptor set 2. -/
def astW2 : Ast := { astW with decorations := [(7, 2)] }

/-- `astW` with the constant of constant_id 11 overridden to 99; the constant of
constant_id 10 keeps its default 42. -/
def astW5 : Ast := { astW with spec_constants := [⟨3, 10, 42⟩, ⟨4, 11, 99⟩] }

/-- A module whose only entry point is named `other`: the cleansed name `main`
resolves but matches no enumerated entry point. -/
def astM : Ast := { astW with entry_points := [⟨"other", ExecutionModel.Fragment⟩] }

/-- A module whose cleansed-name table is keyed by the Vertex execution model
while its actual entry point reports the Fragment execution model. -/
def astX : Ast := { astW with cleansed := [(("main", ExecutionModel.Vertex), "main")] }

/-- A native compiler that always succeeds with a fixed blob. -/
def d3dOk : String → String → List Nat → D3DResult :=
  fun _ _ _ => D3DResult.succeeded ⟨[1, 2, 3]⟩

/-- A native compiler that succeeds only when handed the `ps_5_0` profile. -/
def d3dPs : String → String → List Nat → D3DResult :=
  fun profile _ _ =>
    if profile == "ps_5_0" then D3DResult.succeeded ⟨[9]⟩ else D3DResult.failed []

/-- A native compiler that fails with an empty diagnostic blob. -/
def d3dFailEmpty : String → String → List Nat → D3DResult :=
  fun _ _ _ => D3DResult.failed []

/-- An external SPIR-V parser producing the concrete module `astW`. -/
def spirvParseW : List Nat → Except SpirvErrorCode Ast := fun _ => Except.ok astW

/-- An external SPIR-V parser producing the concrete module `astM`. -/
def spirvParseM : List Nat → Except SpirvErrorCode Ast := fun _ => Except.ok astM

/-- An external SPIR-V parser producing the concrete module `astX`. -/
def spirvParseX : List Nat → Except SpirvErrorCode Ast := fun _ => Except.ok astX

/-- The compiler options the pipeline sets before translation: shader model 5.0
with vertical coordinate inversion. -/
def optsV50 : CompilerOptions := { shader_model := ShaderModel.V5_0, vertex_invert_y := true }

/-- `astM` after the binding remap. -/
def astM1 : Ast := { astM with decorations := [(7, 1)] }

/-- `astM` after remap and translation (options set). -/
def astM2 : Ast := { astM1 with options := optsV50 }

/-- `astX` after the binding remap. -/
def astX1 : Ast := { astX with decorations := [(7, 1)] }

/-- `astX` after remap and translation (options set). -/
def astX2 : Ast := { astX1 with options := optsV50 }

/-! ### Association-list and remap lemmas -/

theorem lookup_setAssoc_self (l : List (Nat × Nat)) (k v : Nat) :
    lookupAssoc (setAssoc l k v) k = some v := by
  induction l with
  | nil => simp [setAssoc, lookupAssoc]
  | cons p rest ih =>
    obtain ⟨k', v'⟩ := p
    by_cases h : k' = k
    · subst h; simp [setAssoc, lookupAssoc]
    · simp [setAssoc, lookupAssoc, h, ih]

theorem lookup_setAssoc_other (l : List (Nat × Nat)) (k v x : Nat) (h : x ≠ k) :
    lookupAssoc (setAssoc l k v) x = lookupAssoc l x := by
  induction l with
  | nil => simp [setAssoc, lookupAssoc, Ne.symm h]
  | cons p rest ih =>
    obtain ⟨k', v'⟩ := p
    by_cases hk : k' = k
    · subst hk; simp [setAssoc, lookupAssoc, Ne.symm h]
    · simp [setAssoc, lookupAssoc, hk, ih]

theorem patch_resource_list_fields (rs : List Resource) : ∀ a a' : Ast,
    patch_resource_list a rs = Except.ok a' →
    a'.spec_constants = a.spec_constants ∧ a'.resources = a.resources ∧
      a'.entry_points = a.entry_points ∧ a'.cleansed = a.cleansed ∧
      a'.compiled = a.compiled ∧ a'.options = a.options := by
  induction rs with
  | nil =>
    intro a a' h
    simp only [patch_resource_list] at h
    cases h
    exact ⟨rfl, rfl, rfl, rfl, rfl, rfl⟩
  | cons r rest ih =>
    intro a a' h
    simp only [patch_resource_list] at h
    cases hg : a.get_decoration r.id Decoration.DescriptorSet with
    | error e => rw [hg] at h; simp at h
    | ok s =>
      rw [hg] at h
      simp only [Ast.set_decoration] at h
      simpa using ih _ _ h

theorem patch_resource_list_frame (rs : List Resource) (x : Nat) : ∀ a a' : Ast,
    patch_resource_list a rs = Except.ok a' → (∀ r ∈ rs, r.id ≠ x) →
    lookupAssoc a'.decorations x = lookupAssoc a.decorations x := by
  induction rs with
  | nil =>
    intro a a' h _
    simp only [patch_resource_list] at h
    cases h
    rfl
  | cons r rest ih =>
    intro a a' h hx
    simp only [patch_resource_list] at h
    cases hg : a.get_decoration r.id Decoration.DescriptorSet with
    | error e => rw [hg] at h; simp at h
    | ok s =>
      rw [hg] at h
      simp only [Ast.set_decoration] at h
      have hstep := ih _ _ h (fun r' hr' => hx r' (List.mem_cons_of_mem _ hr'))
      rw [hstep]
      exact lookup_setAssoc_other _ _ _ _ (Ne.symm (hx r (List.mem_cons_self _ _)))

theorem patch_resource_list_hit (rs : List Resource) : ∀ a a' : Ast,
    patch_resource_list a rs = Except.ok a' → (rs.map Resource.id).Nodup →
    ∀ r ∈ rs, ∀ s : Nat, lookupAssoc a.decorations r.id = some s →
    lookupAssoc a'.decorations r.id = some ((space_offset + s) % 2 ^ 32) := by
  induction rs with
  | nil =>
    intro a a' _ _ r hr
    cases hr
  | cons r0 rest ih =>
    intro a a' h hnd r hr s hs
    simp only [patch_resource_list] at h
    cases hg : a.get_decoration r0.id Decoration.DescriptorSet with
    | error e => rw [hg] at h; simp at h
    | ok s0 =>
      rw [hg] at h
      simp only [Ast.set_decoration] at h
      have hnd' := hnd
      rw [List.map_cons, List.nodup_cons] at hnd'
      rcases List.mem_cons.mp hr with hre | hrm
      · subst hre
        have hs0 : s0 = s := by
          simp only [Ast.get_decoration, hs] at hg
          exact (Option.some.inj (by injection hg with hh; exact congrArg some hh)).symm
        subst hs0
        have hframe := patch_resource_list_frame rest r.id _ _ h
          (fun r' hr' hid => hnd'.1 (hid ▸ List.mem_map_of_mem Resource.id hr'))
        rw [hframe]
        exact lookup_setAssoc_self _ _ _
      · have hne : r.id ≠ r0.id := by
          intro he
          exact hnd'.1 (he ▸ List.mem_map_of_mem Resource.id hrm)
        have hmid : lookupAssoc (setAssoc a.decorations r0.id ((space_offset + s0) % 2 ^ 32)) r.id
            = some s := by
          rw [lookup_setAssoc_other _ _ _ _ hne]
          exact hs
        exact ih _ _ h hnd'.2 r hrm s hmid

theorem patch_resource_list_append (xs ys : List Resource) : ∀ a : Ast,
    patch_resource_list a (xs ++ ys) =
      match patch_resource_list a xs with
      | Except.ok a1 => patch_resource_list a1 ys
      | Except.error e => Except.error e := by
  induction xs with
  | nil => intro a; simp [patch_resource_list]
  | cons r rest ih =>
    intro a
    simp only [List.cons_append, patch_resource_list]
    cases hg : a.get_decoration r.id Decoration.DescriptorSet with
    | error e => simp
    | ok s =>
      simp only [Ast.set_decoration]
      exact ih _

theorem patch_spirv_resources_eq_all (ast : Ast) (layout : Option PipelineLayout) :
    patch_spirv_resources ast layout = patch_resource_list ast ast.resources.allResources := by
  simp only [patch_spirv_resources, Ast.get_shader_resources, ShaderResources.allResources,
    patch_resource_list_append]
  cases h1 : patch_resource_list ast ast.resources.separate_images <;> simp
  cases h2 : patch_resource_list _ ast.resources.uniform_buffers <;> simp
  cases h3 : patch_resource_list _ ast.resources.storage_buffers <;> simp
  cases h4 : patch_resource_list _ ast.resources.storage_images <;> simp
  cases h5 : patch_resource_list _ ast.resources.separate_samplers <;> simp
  cases h6 : patch_resource_list _ ast.resources.sampled_images <;> simp

theorem get_decoration_lookup (a : Ast) (id s : Nat) :
    a.get_decoration id Decoration.DescriptorSet = Except.ok s ↔
      lookupAssoc a.decorations id = some s := by
  simp only [Ast.get_decoration]
  cases hl : lookupAssoc a.decorations id <;> simp

/-- C1: for every shader resource in each of the six resource categories of a
successfully parsed module, after one application of the binding remap
(`patch_spirv_resources`), the resource's descriptor-set decoration equals its
original descriptor-set value plus `space_offset`, where `space_offset` is the
constant 1. -/
theorem patch_remap_adds_space_offset
    (ast ast' : Ast) (layout : Option PipelineLayout) (r : Resource) (s : Nat)
    (hnd : (ast.resources.allResources.map Resource.id).Nodup)
    (hmem : r ∈ ast.resources.allResources)
    (hpatch : patch_spirv_resources ast layout = Except.ok ast')
    (hget : ast.get_decoration r.id Decoration.DescriptorSet = Except.ok s)
    (hlt : space_offset + s < 2 ^ 32) :
    ast'.get_decoration r.id Decoration.DescriptorSet = Except.ok (s + space_offset) := by
  rw [patch_spirv_resources_eq_all] at hpatch
  have hlook := (get_decoration_lookup ast r.id s).mp hget
  have hhit := patch_resource_list_hit _ _ _ hpatch hnd r hmem s hlook
  rw [get_decoration_lookup, hhit, Nat.mod_eq_of_lt hlt, Nat.add_comm]

/-- C1 witness: the concrete module `astW` (one uniform buffer, id 7, descriptor
set 0) remaps to descriptor set 1. -/
theorem patch_remap_adds_space_offset_witness :
    astW1.get_decoration 7 Decoration.DescriptorSet = Except.ok (0 + space_offset) :=
  patch_remap_adds_space_offset astW astW1 none ⟨7⟩ 0 (by decide) (by decide) (by decide)
    (by decide) (by decide)

/-- C6: applying the binding remap twice with the same `space_offset` is not
idempotent but additive: after two applications every resource's descriptor-set
decoration equals its original value plus twice the `space_offset`. -/
theorem patch_remap_twice_additive
    (ast ast1 ast2 : Ast) (layout : Option PipelineLayout) (r : Resource) (s : Nat)
    (hnd : (ast.resources.allResources.map Resource.id).Nodup)
    (hmem : r ∈ ast.resources.allResources)
    (hp1 : patch_spirv_resources ast layout = Except.ok ast1)
    (hp2 : patch_spirv_resources ast1 layout = Except.ok ast2)
    (hget : ast.get_decoration r.id Decoration.DescriptorSet = Except.ok s)
    (hlt : s + 2 * space_offset < 2 ^ 32) :
    ast2.get_decoration r.id Decoration.DescriptorSet = Except.ok (s + 2 * space_offset) := by
  have hso : space_offset = 1 := rfl
  have hres : ast1.resources = ast.resources := by
    rw [patch_spirv_resources_eq_all] at hp1
    exact (patch_resource_list_fields _ _ _ hp1).2.1
  rw [patch_spirv_resources_eq_all] at hp1 hp2
  have hlook := (get_decoration_lookup ast r.id s).mp hget
  have h1 := patch_resource_list_hit _ _ _ hp1 hnd r hmem s hlook
  have hlt1 : space_offset + s < 2 ^ 32 := by omega
  rw [Nat.mod_eq_of_lt hlt1] at h1
  have hmem1 : r ∈ ast1.resources.allResources := by rw [hres]; exact hmem
  have hnd1 : (ast1.resources.allResources.map Resource.id).Nodup := by rw [hres]; exact hnd
  have h2 := patch_resource_list_hit _ _ _ hp2 hnd1 r hmem1 _ h1
  rw [get_decoration_lookup, h2]
  have hmod : (space_offset + (space_offset + s)) % 2 ^ 32 = s + 2 * space_offset := by
    rw [Nat.mod_eq_of_lt] <;> omega
  rw [hmod]

/-- C6 witness: remapping `astW` twice moves the uniform buffer from descriptor
set 0 to descriptor set 2. -/
theorem patch_remap_twice_additive_witness :
    astW2.get_decoration 7 Decoration.DescriptorSet = Except.ok (0 + 2 * space_offset) :=
  patch_remap_twice_additive astW astW1 astW2 none ⟨7⟩ 0 (by decide) (by decide) (by decide)
    (by decide) (by decide) (by decide)

/-! ### Specialization-constant lemmas -/

theorem find_update_other (l : List SpecConstantDecl) (i v x : Nat) (hx : x ≠ i) :
    (l.map (fun d => if d.id == i then { d with value := v } else d)).find?
        (fun d => d.id == x) =
      l.find? (fun d => d.id == x) := by
  induction l with
  | nil => rfl
  | cons d rest ih =>
    rw [List.map_cons]
    by_cases hdx : d.id = x
    · have hdi : d.id ≠ i := by omega
      have hupd : (if d.id == i then { d with value := v } else d) = d := by simp [hdi]
      rw [hupd, List.find?_cons_of_pos _ (by simp [hdx]),
        List.find?_cons_of_pos _ (by simp [hdx])]
    · rw [List.find?_cons_of_neg _ (by split <;> simp [hdx]),
        List.find?_cons_of_neg _ (by simp [hdx])]
      exact ih

theorem set_scalar_constant_other (a a1 : Ast) (i v x : Nat)
    (h : a.set_scalar_constant i v = Except.ok a1) (hx : x ≠ i) :
    a1.scalar_value x = a.scalar_value x := by
  simp only [Ast.set_scalar_constant] at h
  split at h
  · injection h with h1
    subst h1
    simp only [Ast.scalar_value]
    rw [find_update_other _ _ _ _ hx]
  · cases h

theorem apply_specialization_keep (ov : List Specialization)
    (scs : List SpecializationConstant) : ∀ a a' : Ast,
    apply_specialization ov a scs = Except.ok a' →
    ∀ x w : Nat, a.scalar_value x = some w →
    (∀ sc ∈ scs, sc.id = x → ov.find? (fun c => c.id == sc.constant_id) = none) →
    a'.scalar_value x = some w := by
  induction scs with
  | nil =>
    intro a a' h x w hv _
    simp only [apply_specialization] at h
    cases h
    exact hv
  | cons sc rest ih =>
    intro a a' h x w hv hsafe
    simp only [apply_specialization] at h
    cases hf : ov.find? (fun c => c.id == sc.constant_id) with
    | none =>
      simp only [hf] at h
      exact ih _ _ h x w hv (fun sc' hm => hsafe sc' (List.mem_cons_of_mem _ hm))
    | some constant =>
      simp only [hf] at h
      cases hset : a.set_scalar_constant sc.id (constant_value constant.value) with
      | error e => simp only [hset] at h; simp at h
      | ok a1 =>
        simp only [hset] at h
        have hne : x ≠ sc.id := by
          intro he
          have hcontra := hsafe sc (List.mem_cons_self _ _) he.symm
          rw [hcontra] at hf
          cases hf
        have hv1 : a1.scalar_value x = some w := by
          rw [set_scalar_constant_other a a1 sc.id _ x hset hne]
          exact hv
        exact ih _ _ h x w hv1 (fun sc' hm => hsafe sc' (List.mem_cons_of_mem _ hm))

theorem find_decl_of_nodup : ∀ (l : List SpecConstantDecl) (d : SpecConstantDecl),
    (l.map SpecConstantDecl.id).Nodup → d ∈ l →
    l.find? (fun e => e.id == d.id) = some d := by
  intro l d
  induction l with
  | nil => intro _ h; cases h
  | cons e rest ih =>
    intro hnd hd
    rw [List.map_cons, List.nodup_cons] at hnd
    rcases List.mem_cons.mp hd with he | hm
    · subst he
      exact List.find?_cons_of_pos _ (by simp)
    · have hne : e.id ≠ d.id := by
        intro hh
        exact hnd.1 (hh ▸ List.mem_map_of_mem SpecConstantDecl.id hm)
      rw [List.find?_cons_of_neg _ (by simp [hne])]
      exact ih hnd.2 hm

/-- C5: a declared specialization constant whose `constant_id` matches no
caller-supplied override is not written: after the resolver succeeds it still
holds the module's default value; only constants with a matching `constant_id`
are overwritten. -/
theorem unmatched_spec_constants_keep_default
    (ast ast' : Ast) (overrides : List Specialization) (d : SpecConstantDecl)
    (hnd : (ast.spec_constants.map SpecConstantDecl.id).Nodup)
    (hres : resolve_specialization ast overrides = Except.ok ast')
    (hd : d ∈ ast.spec_constants)
    (hnone : ∀ o ∈ overrides, o.id ≠ d.constant_id) :
    ast'.scalar_value d.id = some d.value := by
  simp only [resolve_specialization, Ast.get_specialization_constants] at hres
  have hv : ast.scalar_value d.id = some d.value := by
    simp only [Ast.scalar_value]
    rw [find_decl_of_nodup _ _ hnd hd]
    rfl
  refine apply_specialization_keep _ _ _ _ hres d.id d.value hv ?_
  intro sc hm hid
  rcases List.mem_map.mp hm with ⟨e, he, hsc⟩
  have hid' : e.id = d.id := by rw [← hsc] at hid; exact hid
  have hde : e = d := by
    have h1 := find_decl_of_nodup _ e hnd he
    have h2 := find_decl_of_nodup _ d hnd hd
    rw [hid'] at h1
    rw [h1] at h2
    injection h2
  rw [List.find?_eq_none]
  intro o ho
  have hcid : sc.constant_id = d.constant_id := by rw [← hsc, hde]
  simp [hcid, hnone o ho]

/-- C5 witness: overriding only constant_id 11 of `astW` leaves the constant of
constant_id 10 (internal id 3) at its default 42. -/
theorem unmatched_spec_constants_keep_default_witness :
    astW5.scalar_value 3 = some 42 :=
  unmatched_spec_constants_keep_default astW astW5 [⟨11, Constant.U32 99⟩] ⟨3, 10, 42⟩
    (by decide) (by decide) (by decide) (by decide)

/-- C2: the 64-bit payload written for an override is a zero-extension for
booleans and unsigned integers, and a bit-for-bit reinterpretation (never a
numeric conversion) for signed integers and floats: the F32/F64 payload is the
value's IEEE-754 bit pattern and the I32/I64 payload its two's-complement
pattern.  In particular the 32-bit float 1.0 (bit pattern 1065353216, i.e.
0x3F800000) is not written as the 64-bit integer 1, and I32 −1 is written as
4294967295, its 32-bit pattern. -/
theorem spec_constant_payload_encoding :
    (∀ v : Bool, constant_value (Constant.Bool v) = if v then 1 else 0)
    ∧ (∀ v : Nat, constant_value (Constant.U32 v) = v % 2 ^ 32)
    ∧ (∀ v : Nat, constant_value (Constant.U64 v) = v % 2 ^ 64)
    ∧ (∀ b : Nat, constant_value (Constant.F32 b) = b % 2 ^ 32)
    ∧ (∀ b : Nat, constant_value (Constant.F64 b) = b % 2 ^ 64)
    ∧ (∀ v : Int, constant_value (Constant.I32 v) = (v % 2 ^ 32).toNat)
    ∧ constant_value (Constant.F32 1065353216) = 1065353216
    ∧ constant_value (Constant.F32 1065353216) ≠ 1
    ∧ constant_value (Constant.I32 (-1)) = 4294967295 :=
  ⟨fun _ => rfl, fun _ => rfl, fun _ => rfl, fun _ => rfl, fun _ => rfl, fun _ => rfl,
    by decide, by decide, by decide⟩

/-- C2 witness: the encoding evaluated at concrete override values. -/
theorem spec_constant_payload_encoding_witness :
    constant_value (Constant.U32 5) = 5 % 2 ^ 32
    ∧ constant_value (Constant.F32 1065353216) ≠ 1 :=
  ⟨spec_constant_payload_encoding.2.1 5,
    spec_constant_payload_encoding.2.2.2.2.2.2.2.1⟩

/-- C7: for every input byte buffer whose length is not a multiple of 4 the
parser stage fails with the assertion (`none`, a panic, not a recoverable
error) before any 32-bit word is decoded and before the external parser runs
(the outcome is `none` for every possible external parser); for buffers whose
length is a multiple of 4 the assertion never fires. -/
theorem parse_spirv_word_alignment :
    ∀ (spirvParse : List Nat → Except SpirvErrorCode Ast) (raw_data : List Nat),
    (raw_data.length % 4 ≠ 0 → parse_spirv spirvParse raw_data = none)
    ∧ (raw_data.length % 4 = 0 → (parse_spirv spirvParse raw_data).isSome) := by
  intro spirvParse raw_data
  have hmask : raw_data.length &&& 3 = raw_data.length % 4 := by
    have h3 : (3 : Nat) = 2 ^ 2 - 1 := rfl
    rw [h3, Nat.and_pow_two_sub_one_eq_mod]
  constructor
  · intro h
    simp only [parse_spirv, hmask, if_neg h]
  · intro h
    simp only [parse_spirv, hmask, if_pos h, Option.isSome_some]

/-- C7 witness: a 3-byte buffer is rejected by the assertion; a 4-byte buffer
passes it. -/
theorem parse_spirv_word_alignment_witness :
    parse_spirv spirvParseW [0, 0, 0] = none
    ∧ (parse_spirv spirvParseW [0, 0, 0, 0]).isSome :=
  ⟨(parse_spirv_word_alignment spirvParseW [0, 0, 0]).1 (by decide),
    (parse_spirv_word_alignment spirvParseW [0, 0, 0, 0]).2 (by decide)⟩

/-- C3: when no entry point enumerated from the translated module has a name
equal to the resolved (cleansed) real entry name, the pipeline fails with
`MissingEntryPoint` carrying the caller's original logical entry name — an
error constructor distinct from every `CompilationFailed` — and the native
compiler is never invoked (the outcome is the same for every possible
`d3dCompile`). -/
theorem missing_entry_point_fails
    (spirvParse : List Nat → Except SpirvErrorCode Ast)
    (d3dCompile : String → String → List Nat → D3DResult)
    (raw_data : List Nat) (stage : Stage) (source : EntryPointDesc) (layout : PipelineLayout)
    (ast ast1 ast2 ast3 : Ast) (shader_code real_name : String)
    (hparse : parse_spirv spirvParse raw_data = some (Except.ok ast))
    (hspec : resolve_specialization ast source.specialization = Except.ok ast1)
    (hpatch : patch_spirv_resources ast1 (some layout) = Except.ok ast2)
    (htrans : translate_spirv ast2 ShaderModel.V5_0 layout stage = Except.ok (shader_code, ast3))
    (hclean : ast3.get_cleansed_entry_point_name source.entry (map_stage stage)
        = Except.ok real_name)
    (hnames : ∀ ep ∈ ast3.entry_points, ep.name ≠ real_name) :
    compile_spirv_entrypoint spirvParse d3dCompile raw_data stage source layout
        = some (Except.error (ShaderError.MissingEntryPoint source.entry))
      ∧ ∀ msg : String,
        ShaderError.MissingEntryPoint source.entry ≠ ShaderError.CompilationFailed msg := by
  have hfind : ast3.entry_points.find? (fun ep => ep.name == real_name) = none :=
    List.find?_eq_none.mpr (fun ep hm => by simp [hnames ep hm])
  constructor
  · simp only [compile_spirv_entrypoint, hparse, hspec, hpatch, htrans, hclean,
      Ast.get_entry_points, hfind]
  · intro msg h
    cases h

/-- C3 witness: the module `astM` (whose only entry point is `other`) compiled
for a `main` entry descriptor fails with `MissingEntryPoint "main"`. -/
theorem missing_entry_point_fails_witness :
    compile_spirv_entrypoint spirvParseM d3dOk [0, 0, 0, 0] Stage.Fragment ⟨"main", []⟩ ⟨⟩
      = some (Except.error (ShaderError.MissingEntryPoint "main")) :=
  (missing_entry_point_fails spirvParseM d3dOk [0, 0, 0, 0] Stage.Fragment ⟨"main", []⟩ ⟨⟩
    astM astM astM1 astM2 "float4 main() : SV_TARGET" "main"
    (by decide) (by decide) (by decide) (by decide) (by decide) (by decide)).1

/-- C9 counterexample: contrary to the claim, there is no successful input for
which the compile call returns `Ok(None)`: no combination of external parser,
native compiler and arguments makes `compile_spirv_entrypoint` produce a
success carrying `none`. -/
theorem compile_never_returns_ok_none :
    ¬ ∃ (spirvParse : List Nat → Except SpirvErrorCode Ast)
        (d3dCompile : String → String → List Nat → D3DResult)
        (raw_data : List Nat) (stage : Stage) (source : EntryPointDesc)
        (layout : PipelineLayout),
      compile_spirv_entrypoint spirvParse d3dCompile raw_data stage source layout
        = some (Except.ok none) := by
  rintro ⟨spirvParse, d3dCompile, raw_data, stage, source, layout, h⟩
  unfold compile_spirv_entrypoint at h
  repeat' split at h
  all_goals simp_all

/-- C9 (amended): the return type of the compile call admits `Ok(None)`, but the
implementation never produces it — every success outcome carries `Some(blob)`. -/
theorem compile_success_is_some_blob
    (spirvParse : List Nat → Except SpirvErrorCode Ast)
    (d3dCompile : String → String → List Nat → D3DResult)
    (raw_data : List Nat) (stage : Stage) (source : EntryPointDesc) (layout : PipelineLayout)
    (r : Option Blob)
    (h : compile_spirv_entrypoint spirvParse d3dCompile raw_data stage source layout
        = some (Except.ok r)) :
    ∃ blob : Blob, r = some blob := by
  unfold compile_spirv_entrypoint at h
  repeat' split at h
  all_goals
    first
      | exact ⟨_, (Except.ok.inj (Option.some.inj h)).symm⟩
      | simp at h

/-- C9 witness: a fully successful concrete run returns `Some` of the compiled
blob. -/
theorem compile_success_is_some_blob_witness :
    ∃ blob : Blob, (some (⟨[1, 2, 3]⟩ : Blob)) = some blob :=
  compile_success_is_some_blob spirvParseW d3dOk [0, 0, 0, 0] Stage.Fragment ⟨"main", []⟩ ⟨⟩
    (some ⟨[1, 2, 3]⟩) (by decide)

/-- C10: the stage used to build the native-compiler profile is derived from the
matched entry point's execution model (`map_execution_model
ep.execution_model`), not from the caller-supplied stage argument: once the
cleansed-name lookup (the only place the caller's stage enters, via
`map_stage`) has resolved, the outcome is exactly the native compile at the
module-reported stage. -/
theorem profile_stage_from_execution_model
    (spirvParse : List Nat → Except SpirvErrorCode Ast)
    (d3dCompile : String → String → List Nat → D3DResult)
    (raw_data : List Nat) (stage : Stage) (source : EntryPointDesc) (layout : PipelineLayout)
    (ast ast1 ast2 ast3 : Ast) (shader_code real_name : String) (ep : EntryPointInfo)
    (hparse : parse_spirv spirvParse raw_data = some (Except.ok ast))
    (hspec : resolve_specialization ast source.specialization = Except.ok ast1)
    (hpatch : patch_spirv_resources ast1 (some layout) = Except.ok ast2)
    (htrans : translate_spirv ast2 ShaderModel.V5_0 layout stage = Except.ok (shader_code, ast3))
    (hclean : ast3.get_cleansed_entry_point_name source.entry (map_stage stage)
        = Except.ok real_name)
    (hfind : ast3.entry_points.find? (fun ep => ep.name == real_name) = some ep) :
    compile_spirv_entrypoint spirvParse d3dCompile raw_data stage source layout
      = match compile_hlsl_shader d3dCompile (map_execution_model ep.execution_model)
          ShaderModel.V5_0 ep.name (strBytes shader_code) with
        | none => none
        | some (Except.error e) => some (Except.error e)
        | some (Except.ok shader) => some (Except.ok (some shader)) := by
  simp only [compile_spirv_entrypoint, hparse, hspec, hpatch, htrans, hclean,
    Ast.get_entry_points, hfind]

/-- C10 witness: compiling `astX` with caller stage Vertex: the cleansed lookup
is keyed by Vertex, but the matched entry point reports the Fragment execution
model, and the native compiler (which only accepts the `ps_5_0` profile)
succeeds — the profile came from the module, not the caller's stage. -/
theorem profile_stage_from_execution_model_witness :
    compile_spirv_entrypoint spirvParseX d3dPs [0, 0, 0, 0] Stage.Vertex ⟨"main", []⟩ ⟨⟩
      = some (Except.ok (some ⟨[9]⟩)) := by
  have h := profile_stage_from_execution_model spirvParseX d3dPs [0, 0, 0, 0] Stage.Vertex
    ⟨"main", []⟩ ⟨⟩ astX astX astX1 astX2 "float4 main() : SV_TARGET" "main"
    ⟨"main", ExecutionModel.Fragment⟩ (by decide) (by decide) (by decide) (by decide)
    (by decide) (by decide)
  rw [h]
  decide

/-- C4: the profile string handed to the native compiler is the stage tag
(`vs`/`ps`/`cs`), an underscore, and the shader-model tag (`5_0`/`5_1`/`6_0`);
in particular a fragment entry under shader model 5.0 gets `ps_5_0`.  Every
other stage or shader model hits `unimplemented!()` (modelled as `none`), and
`compile_hlsl_shader` then never reaches the native compiler. -/
theorem hlsl_profile_string :
    ((stage_to_str Stage.Fragment ShaderModel.V5_0).map cString = some "ps_5_0")
    ∧ ((stage_to_str Stage.Vertex ShaderModel.V5_0).map cString = some "vs_5_0")
    ∧ ((stage_to_str Stage.Compute ShaderModel.V5_0).map cString = some "cs_5_0")
    ∧ ((stage_to_str Stage.Fragment ShaderModel.V5_1).map cString = some "ps_5_1")
    ∧ ((stage_to_str Stage.Fragment ShaderModel.V6_0).map cString = some "ps_6_0")
    ∧ (∀ m : ShaderModel, stage_to_str Stage.Hull m = none)
    ∧ (∀ m : ShaderModel, stage_to_str Stage.Domain m = none)
    ∧ (∀ m : ShaderModel, stage_to_str Stage.Geometry m = none)
    ∧ (∀ s : Stage, stage_to_str s ShaderModel.V3_0 = none)
    ∧ (∀ s : Stage, stage_to_str s ShaderModel.V4_0 = none)
    ∧ (∀ s : Stage, stage_to_str s ShaderModel.V4_1 = none)
    ∧ (∀ (d3dCompile : String → String → List Nat → D3DResult) (m : ShaderModel)
        (entry : String) (code : List Nat),
        compile_hlsl_shader d3dCompile Stage.Hull m entry code = none)
    ∧ (∀ (d3dCompile : String → String → List Nat → D3DResult) (entry : String)
        (code : List Nat),
        compile_hlsl_shader d3dCompile Stage.Fragment ShaderModel.V5_0 entry code
          = if entry.data.any (fun c => c == Char.ofNat 0) then none
            else some (d3d_outcome (d3dCompile "ps_5_0" entry code))) := by
  refine ⟨by decide, by decide, by decide, by decide, by decide,
    fun m => by cases m <;> rfl, fun m => by cases m <;> rfl, fun m => by cases m <;> rfl,
    fun s => by cases s <;> rfl, fun s => by cases s <;> rfl, fun s => by cases s <;> rfl,
    ?_, ?_⟩
  · intro d3dCompile m entry code
    unfold compile_hlsl_shader
    split <;> rfl
  · intro d3dCompile entry code
    have hps : stage_to_str Stage.Fragment ShaderModel.V5_0 = some "ps_5_0\x00" := rfl
    have hc : cString "ps_5_0\x00" = "ps_5_0" := by decide
    simp only [compile_hlsl_shader, hps, hc]

/-- C4 witness: a fragment-stage compile under shader model 5.0 hands `ps_5_0`
to the native compiler and succeeds. -/
theorem hlsl_profile_string_witness :
    compile_hlsl_shader d3dOk Stage.Fragment ShaderModel.V5_0 "main" []
      = some (Except.ok ⟨[1, 2, 3]⟩) := by
  rw [hlsl_profile_string.2.2.2.2.2.2.2.2.2.2.2.2 d3dOk "main" []]
  decide

/-- C8 counterexample: a native-compiler failure whose diagnostic blob is empty
is surfaced as `CompilationFailed ""`: the diagnostic text is empty, contrary
to the claim's unconditional non-emptiness. -/
theorem hlsl_empty_diag_counterexample :
    compile_hlsl_shader d3dFailEmpty Stage.Fragment ShaderModel.V5_0 "main" []
      = some (Except.error (ShaderError.CompilationFailed "")) := by decide

/-- C8 (amended): when the native compiler fails, the returned error is
`CompilationFailed` whose message is the lossy UTF-8 decoding of the compiler's
diagnostic blob; decoding is total (invalid sequences are replaced, never a
secondary failure), and the text is non-empty whenever the blob is non-empty. -/
theorem hlsl_failure_lossy_diag :
    (∀ (d3dCompile : String → String → List Nat → D3DResult) (stage : Stage)
        (shader_model : ShaderModel) (entry : String) (code err : List Nat)
        (profile : String),
        entry.data.any (fun c => c == Char.ofNat 0) = false →
        stage_to_str stage shader_model = some profile →
        d3dCompile (cString profile) entry code = D3DResult.failed err →
        compile_hlsl_shader d3dCompile stage shader_model entry code
          = some (Except.error (ShaderError.CompilationFailed (utf8Lossy err))))
    ∧ (∀ bytes : List Nat, bytes ≠ [] → utf8Lossy bytes ≠ "")
    ∧ utf8Lossy [255, 97] = String.mk [replacementChar, Char.ofNat 97] := by
  refine ⟨?_, ?_, by decide⟩
  · intro d3dCompile stage shader_model entry code err profile hnul hstr hd3d
    simp [compile_hlsl_shader, hnul, hstr, hd3d, d3d_outcome]
  · intro bytes hne
    cases bytes with
    | nil => exact absurd rfl hne
    | cons b rest =>
      have hgo : utf8LossyGo (b :: rest).length (b :: rest) ≠ [] := by
        simp only [List.length_cons, utf8LossyGo]
        repeat' split
        all_goals simp
      intro hmk
      apply hgo
      simpa [utf8Lossy] using congrArg String.data hmk

/-- C8 witness: a failure with a non-empty, invalid-UTF-8 blob produces a
non-empty replaced diagnostic; an empty-blob failure still decodes losslessly. -/
theorem hlsl_failure_lossy_diag_witness :
    compile_hlsl_shader d3dFailEmpty Stage.Fragment ShaderModel.V5_0 "main" [1]
      = some (Except.error (ShaderError.CompilationFailed (utf8Lossy [])))
    ∧ utf8Lossy [255] ≠ "" :=
  ⟨hlsl_failure_lossy_diag.1 d3dFailEmpty Stage.Fragment ShaderModel.V5_0 "main" [1] []
      "ps_5_0\x00" (by decide) (by decide) (by decide),
    hlsl_failure_lossy_diag.2.1 [255] (by decide)⟩

end Dx11
